import Mathlib

/-!
Verification of the reconciliation engine of `ghVarSecrets.py`: a shallow
embedding of the remote reader, visibility resolver, tabular importer and
upsert engine, with theorems settling the specified properties.

Conventions of the embedding:
* Python dicts whose keys the program lowercases are modelled either as
  association lists (`Row`, for the importer) or as a structure holding
  exactly the fields the program reads (`CsvRecord`, for the upsert engine).
* Remote calls are modelled by explicit state (`Target`) plus an injected
  per-call behaviour (`ApiBehavior`) standing for the exceptions the code
  catches; logging outcomes are modelled as returned result values.
-/

namespace GhVarSecrets

/-- Python `str.lower()` (the source's `.lower()` calls), evaluated at the
character level so the kernel can compute it; agrees with `String.toLower`
(ASCII case folding) on every string. -/
def strLower (s : String) : String := String.mk (s.data.map Char.toLower)

/-- Python `str.strip()` (the source's `.strip()` in `get_repo_ids`):
whitespace removed from both ends, at the character level. -/
def strTrim (s : String) : String :=
  String.mk (((s.data.dropWhile Char.isWhitespace).reverse.dropWhile
    Char.isWhitespace).reverse)

/-- Helper for `strSplitComma`: accumulates the current field (reversed)
and emits it at each comma and at the end of the string. -/
def splitCommaAux : List Char → List Char → List String
  | [], acc => [String.mk acc.reverse]
  | c :: rest, acc =>
    if c = ',' then String.mk acc.reverse :: splitCommaAux rest []
    else splitCommaAux rest (c :: acc)

/-- Python `str.split(',')` (the source's `selected_repos.split(',')`):
like `String.splitOn ","`, the empty string yields `[""]`. -/
def strSplitComma (s : String) : List String := splitCommaAux s.data []

/-- One secret or variable as held by the remote store inside a container.
`visibility` is `none` for repository-scope items, which carry no
visibility concept. -/
structure StoreItem where
  name : String
  value : String
  visibility : Option String
  selectedRepos : List String
deriving Repr, DecidableEq

/-- A CSV row after the key-lowercasing of `upload_items` line 120
(`{key.lower(): value for key, value in item.items()}`): the structure holds
exactly the keys the program reads (`name`, `value`, `visibility`,
`selectedrepositories` in `upload_items`; `type`, `repository` in
`update_data`). An `Option` field models `dict.get` on a possibly missing
key. -/
structure CsvRecord where
  type : String := ""
  name : String := ""
  value : String := ""
  visibility : Option String := none
  selectedrepositories : Option String := none
  repository : Option String := none
deriving Repr, DecidableEq

/-- A target container for `upload_items`: the organization itself
(`is_org = true`) or one repository (`is_org = false`). `secrets` and
`vars` are the items it currently stores; `repoNames` are the
repository names its `get_repo` resolves (empty for repository targets,
whose `get_repo` calls all fail). -/
structure Target where
  name : String
  secrets : List StoreItem
  vars : List StoreItem
  repoNames : List String
deriving Repr, DecidableEq

/-- Modelled from the spec: the remote store's fetch-a-single-named-item
capability (`target.get_secret(name)` / `target.get_variable(name)`, §6),
which is not part of this repository. GitHub Actions secret and variable
names are case-insensitive, matching §3's case-insensitive uniqueness
invariant, so the probe finds an item whose name matches the requested name
case-insensitively; `none` models the 404 "not found" response. -/
def lookupItemCI (items : List StoreItem) (nm : String) : Option StoreItem :=
  items.find? (fun it => strLower it.name == strLower nm)

/-- Lines 137-140 of `upload_items`: `visibility = item.get('visibility',
'all')`, then anything other than the exact strings `'private'` and
`'selected'` is replaced by `'all'`. Note the code never lowercases the
value (line 120 lowercases dict keys only). -/
def resolveVisibility (vis : Option String) : String :=
  let v := vis.getD "all"
  if v = "private" ∨ v = "selected" then v else "all"

/-- `get_repo_ids(org, repo_names)` (lines 102-113): each name is stripped
and looked up individually via `org.get_repo`; a lookup failure is logged
and drops just that name. `getRepo` is the external lookup capability,
returning `none` on failure. -/
def get_repo_ids {α : Type} (getRepo : String → Option α) (repo_names : List String) :
    List α :=
  repo_names.filterMap (fun repo_name => getRepo (strTrim repo_name))

/-- The `org.get_repo` capability of a `Target`: resolves exactly the names
in `repoNames` (to the repository name itself, standing for the repository
handle). -/
def orgGetRepo (t : Target) (nm : String) : Option String :=
  if t.repoNames.contains nm then some nm else none

/-- The behaviour of the remote API during one `upload_items` iteration:
`ok` (probe answers from the store, creation succeeds), `probeError`
(the probe raises an exception without `'404'` in its message), or
`createError` (the create call raises). -/
inductive ApiBehavior where
  | ok
  | probeError
  | createError
deriving Repr, DecidableEq

/-- The outcome of one `upload_items` iteration, as surfaced by its logging:
`Created` (info "Uploaded"), `Skipped` (warning "already exists", the
`continue` at line 131), `Failed` (error "Failed to upload", the outer
`except` at lines 164-165). -/
inductive UpsertResult where
  | Created
  | Skipped
  | Failed
deriving Repr, DecidableEq

/-- Adds a freshly created item to the container list selected by
`item_type` (the `create_secret` / `create_variable` dispatch). -/
def addItem (t : Target) (item_type : String) (it : StoreItem) : Target :=
  if item_type = "secrets" then { t with secrets := it :: t.secrets }
  else if item_type = "variables" then { t with vars := it :: t.vars }
  else t

/-- The item list of `t` probed for `item_type` (the `get_secret` /
`get_variable` dispatch at lines 124-127; any other `item_type` probes
nothing). -/
def targetItems (t : Target) (item_type : String) : List StoreItem :=
  if item_type = "secrets" then t.secrets
  else if item_type = "variables" then t.vars
  else []

/-- The creation path of `upload_items` (lines 136-163): resolve visibility,
resolve selected repositories when visibility is `selected`, then issue the
scope-appropriate create call. A raising create call (`createError`) leaves
the store unchanged and is reported `Failed` by the outer handler. -/
def upload_create (t : Target) (item_type : String) (is_org : Bool)
    (rec : CsvRecord) (beh : ApiBehavior) : Target × UpsertResult :=
  let visibility := resolveVisibility rec.visibility
  let selected_repo_objects :=
    if visibility = "selected" then
      get_repo_ids (orgGetRepo t) (strSplitComma (rec.selectedrepositories.getD ""))
    else []
  if beh = ApiBehavior.createError then (t, UpsertResult.Failed)
  else if is_org then
    (addItem t item_type
      { name := rec.name, value := rec.value,
        visibility := some visibility, selectedRepos := selected_repo_objects },
     UpsertResult.Created)
  else
    (addItem t item_type
      { name := rec.name, value := rec.value,
        visibility := none, selectedRepos := [] },
     UpsertResult.Created)

/-- One iteration of the `upload_items` loop (lines 119-165) on one record:
probe for an existing item; on a non-404 probe exception report `Failed`;
if an item was found whose name matches case-insensitively, skip; otherwise
proceed to creation. -/
def upload_one (t : Target) (item_type : String) (is_org : Bool)
    (rec : CsvRecord) (beh : ApiBehavior) : Target × UpsertResult :=
  if beh = ApiBehavior.probeError then (t, UpsertResult.Failed)
  else
    match lookupItemCI (targetItems t item_type) rec.name with
    | some existing_item =>
        if strLower existing_item.name = strLower rec.name then (t, UpsertResult.Skipped)
        else upload_create t item_type is_org rec beh
    | none => upload_create t item_type is_org rec beh

/-- `upload_items(target, item_type, items, is_org)`: processes every record
in order, threading the store state; each record is paired with the API
behaviour met during its iteration. Returns the final store state and, per
record, its name with its logged outcome. -/
def upload_items (item_type : String) (is_org : Bool) :
    Target → List (CsvRecord × ApiBehavior) → Target × List (String × UpsertResult)
  | t, [] => (t, [])
  | t, (rec, beh) :: rest =>
    let step := upload_one t item_type is_org rec beh
    let further := upload_items item_type is_org step.1 rest
    (further.1, (rec.name, step.2) :: further.2)

/-- `upload_items` as called from `update_data`, where no injected API
failure is being considered: every iteration behaves `ok`. -/
def upload_batch (t : Target) (item_type : String) (is_org : Bool)
    (recs : List CsvRecord) : Target × List (String × UpsertResult) :=
  upload_items item_type is_org t (recs.map (fun r => (r, ApiBehavior.ok)))

/-- One parsed CSV row, as the dict `pandas` hands back: column name to cell
text. -/
def Row : Type := List (String × String)

instance : DecidableEq Row := by
  unfold Row
  exact inferInstance

instance : Repr Row := by
  unfold Row
  exact inferInstance

/-- `row[col]` / `row.get(col)`: the cell of `row` under column `col`. -/
def getCell (row : Row) (col : String) : Option String :=
  (List.find? (fun p => p.1 == col) row).map (fun p => p.2)

/-- `df.columns = map(str.lower, df.columns)` seen from one row: every key
lowercased. -/
def lowerKeys (row : Row) : Row :=
  List.map (fun p : String × String => (strLower p.1, p.2)) row

/-- The CSV file as handed to `read_and_verify_csv` after `pd.read_csv`:
whether the path ends in `.csv`, the column headers as written in the file,
and the parsed rows (malformed lines already skipped by
`on_bad_lines='skip'`). -/
structure CsvFile where
  isCsvExt : Bool
  headers : List String
  rows : List Row
deriving Repr, DecidableEq

/-- The `valid_types` list built at lines 185-190: the row types admitted
for the requested scope. -/
def valid_types (scope : String) : List String :=
  (if scope = "org" ∨ scope = "both" then ["org_secret", "org_variable"] else []) ++
  (if scope = "repo" ∨ scope = "both" then ["repo_secret", "repo_variable"] else [])

/-- The per-row check of lines 183-194 on one (key-lowercased) row:
`row['type'].lower()` must be in `valid_types`. A missing `type` cell
models the `KeyError` the code catches at line 210, which likewise rejects
the batch. -/
def rowTypeOk (scope : String) (row : Row) : Bool :=
  match getCell row "type" with
  | none => false
  | some t => (valid_types scope).contains (strLower t)

/-- `required_headers_org` (line 177). -/
def required_headers_org : List String :=
  ["type", "name", "value", "visibility", "selectedrepositories"]

/-- `required_headers_repo` (line 178). -/
def required_headers_repo : List String :=
  ["type", "name", "value", "repository"]

/-- `req.issubset(headers)`. -/
def headersContain (headers req : List String) : Bool :=
  req.all (fun h => headers.contains h)

/-- `read_and_verify_csv(file_path, scope)` (lines 167-212): reject non-CSV
extensions; lowercase column names; reject the whole batch (returning `[]`)
as soon as one row's `type` is outside the admitted set; then reject the
batch when the required headers for the scope are missing; otherwise return
all rows (`df.to_dict(orient='records')`, keys lowercased). Every rejection
path of the source returns the empty list. -/
def read_and_verify_csv (file : CsvFile) (scope : String) : List Row :=
  if file.isCsvExt = false then []
  else
    let headers := file.headers.map strLower
    let rows := file.rows.map lowerKeys
    if (rows.all (rowTypeOk scope)) = false then []
    else if scope = "org" then
      if headersContain headers required_headers_org then rows else []
    else if scope = "repo" then
      if headersContain headers required_headers_repo then rows else []
    else if scope = "both" then
      if headersContain headers required_headers_org
          && headersContain headers required_headers_repo then rows else []
    else rows

/-- Converts a key-lowercased row to the record shape `upload_items` and
`update_data` read. Direct dict accesses (`item['name']`, line 125) are
totalised with `""`; they cannot miss for importer-validated rows, whose
required headers are enforced. -/
def toRecord (row : Row) : CsvRecord :=
  { type := (getCell row "type").getD ""
    name := (getCell row "name").getD ""
    value := (getCell row "value").getD ""
    visibility := getCell row "visibility"
    selectedrepositories := getCell row "selectedrepositories"
    repository := getCell row "repository" }

/-- The whole organization as `update_data` sees it: the organization-level
container and the repositories returned by `org.get_repos()`. -/
structure Org where
  target : Target
  repos : List Target
deriving Repr, DecidableEq

/-- The list comprehensions of lines 248-249: rows whose `type` equals
`ty`. -/
def org_filter (csv_items : List Row) (ty : String) : List Row :=
  csv_items.filter (fun item => getCell item "type" == some ty)

/-- The list comprehensions of lines 256-257: rows whose `type` equals `ty`
and whose `repository` cell equals `repoName` by exact, case-sensitive
string comparison. -/
def repo_filter (csv_items : List Row) (ty : String) (repoName : String) : List Row :=
  csv_items.filter (fun item =>
    getCell item "type" == some ty && getCell item "repository" == some repoName)

/-- The `for repo in org.get_repos()` loop of lines 255-259: per repository,
upload its `repo_secret` batch then its `repo_variable` batch. Events are
tagged with the repository name. -/
def update_repos (csv_items : List Row) :
    List Target → List Target × List (String × String × UpsertResult)
  | [] => ([], [])
  | repo :: rest =>
    let rs := (repo_filter csv_items "repo_secret" repo.name).map toRecord
    let rv := (repo_filter csv_items "repo_variable" repo.name).map toRecord
    let step1 := upload_batch repo "secrets" false rs
    let step2 := upload_batch step1.1 "variables" false rv
    let further := update_repos csv_items rest
    (step2.1 :: further.1,
     (step1.2 ++ step2.2).map (fun e => (repo.name, e.1, e.2)) ++ further.2)

/-- `update_data(org, csv_file_path, scope)` (lines 241-259): read and
verify the CSV, lowercase row keys (again), then upload the organization
batches when the scope covers `org` and the per-repository batches when it
covers `repo`. Returns the final remote state and the list of
(container, item, outcome) events. -/
def update_data (org : Org) (file : CsvFile) (scope : String) :
    Org × List (String × String × UpsertResult) :=
  let csv_items := (read_and_verify_csv file scope).map lowerKeys
  let orgStep :=
    if scope = "org" ∨ scope = "both" then
      let org_secrets := (org_filter csv_items "org_secret").map toRecord
      let org_variables := (org_filter csv_items "org_variable").map toRecord
      let step1 := upload_batch org.target "secrets" true org_secrets
      let step2 := upload_batch step1.1 "variables" true org_variables
      (step2.1, (step1.2 ++ step2.2).map (fun e => ("org", e.1, e.2)))
    else (org.target, [])
  let repoStep :=
    if scope = "repo" ∨ scope = "both" then update_repos csv_items org.repos
    else (org.repos, [])
  (⟨orgStep.1, repoStep.1⟩, orgStep.2 ++ repoStep.2)

/-- One remote item object `i` as yielded by `get_secrets()` /
`get_variables()`: its name, its `visibility` attribute (`none` when the
attribute is absent, as `getattr(i, 'visibility', None)` observes), the
names of its selected repositories, and its `value` attribute (meaningful
for repository-scope variable objects, whose listing carries the value). -/
structure ItemInfo where
  name : String
  visibility : Option String := none
  selectedRepoNames : List String := []
  value : String := ""
deriving Repr, DecidableEq

/-- `get_selected_repositories(item)` (lines 11-14): the repository names
when `item.visibility == 'selected'`, else `None`. -/
def get_selected_repositories (i : ItemInfo) : Option (List String) :=
  if i.visibility = some "selected" then some i.selectedRepoNames else none

/-- What a container's item iterator does: it yields `yielded` in order and
then, when `errors` is true, raises (the exception the enumerating
functions catch and log). Per-item work in the loop bodies never raises, so
an enumeration error always falls between two yields or after the last. -/
structure ItemStream where
  yielded : List ItemInfo
  errors : Bool
deriving Repr, DecidableEq

/-- The outcome of the HTTP GET inside `get_org_variable_value`: a JSON
body (as key-value pairs) on success, or a raised
`requests.exceptions.RequestException` (also covering non-2xx via
`raise_for_status`). -/
inductive HttpResult where
  | ok (body : List (String × String))
  | err
deriving Repr, DecidableEq

/-- `get_org_variable_value(token, org_name, var_name)` (lines 16-33) given
the response of its one dedicated request: `response.json().get('value')`
on success; on a request failure the exception is caught, an error is
logged and `None` is returned. -/
def get_org_variable_value (resp : HttpResult) : Option String :=
  match resp with
  | HttpResult.ok body => (List.find? (fun p => p.1 == "value") body).map (fun p => p.2)
  | HttpResult.err => none

/-- One exported record at organization scope: the dict built at lines
42-48. `Value = none` models both an absent `Value` key and a `None`
value (both export as an empty cell, never as the empty string). -/
structure OrgRecord where
  itemName : String
  itemVisibility : Option String
  itemSelectedRepositories : Option (List String)
  itemValue : Option String
deriving Repr, DecidableEq

/-- `get_items_org(item, item_type, fetch_values, token, org_name)` (lines
35-52). `respOf` is the network's answer to the dedicated value request for
a given variable name. Items already appended before an enumeration error
stay in the returned list; the second component records whether the
enumeration error was caught and logged (line 51). -/
def get_items_org (stream : ItemStream) (item_type : String) (fetch_values : Bool)
    (token org_name : String) (respOf : String → HttpResult) :
    List OrgRecord × Bool :=
  (stream.yielded.map (fun i =>
    { itemName := i.name
      itemVisibility := i.visibility
      itemSelectedRepositories := get_selected_repositories i
      itemValue :=
        if fetch_values ∧ item_type = "variables" ∧ token ≠ "" ∧ org_name ≠ "" then
          get_org_variable_value (respOf i.name)
        else none }),
   stream.errors)

/-- One exported record at repository scope: the dict built at lines
61-66. -/
structure RepoRecord where
  repositoryName : String
  itemName : String
  itemValue : Option String
deriving Repr, DecidableEq

/-- `get_items_repo(item, item_type, fetch_values)` (lines 54-70): per
yielded item a record with the repository name and item name, plus the
item's own `value` attribute when values of variables are requested. -/
def get_items_repo (repoName : String) (stream : ItemStream) (item_type : String)
    (fetch_values : Bool) : List RepoRecord × Bool :=
  (stream.yielded.map (fun i =>
    { repositoryName := repoName
      itemName := i.name
      itemValue :=
        if fetch_values ∧ item_type = "variables" then some i.value else none }),
   stream.errors)

/-- The environment enumeration of one repository as `get_env_items_repo`
walks it: the (environment name, items) pairs fully yielded before an
optional raised error. -/
structure EnvEnum where
  envs : List (String × List ItemInfo)
  errors : Bool
deriving Repr, DecidableEq

/-- One exported record at repository-environment scope: the dict built at
lines 82-88. -/
structure EnvRecord where
  repositoryName : String
  environmentName : String
  itemName : String
  itemValue : Option String
deriving Repr, DecidableEq

/-- `get_env_items_repo(repo, item_type, fetch_values)` (lines 72-92):
for every environment, every item becomes a record; values of variables are
read from the item object itself. -/
def get_env_items_repo (repoName : String) (enum : EnvEnum) (item_type : String)
    (fetch_values : Bool) : List EnvRecord × Bool :=
  ((enum.envs.map (fun env => env.2.map (fun i =>
      { repositoryName := repoName
        environmentName := env.1
        itemName := i.name
        itemValue :=
          if fetch_values ∧ item_type = "variables" then some i.value else none
        : EnvRecord }))).flatten,
   enum.errors)

/-- The repository loop of `fetch_data` (lines 231-236) restricted to one
item kind: `repo_secrets.extend(get_items_repo(repo, item_type,
fetch_values))` over every repository of the organization. One
repository's enumeration error does not abort its siblings. -/
def collect_repo_items (repos : List (String × ItemStream)) (item_type : String)
    (fetch_values : Bool) : List RepoRecord :=
  (repos.map (fun r => (get_items_repo r.1 r.2 item_type fetch_values).1)).flatten

/-! ## Helper lemmas -/

/-- Every item of the post-state of one upsert iteration is an old item or
the freshly created one, whose `visibility` field is `some` of the resolved
visibility (organization target) or `none` (repository target). -/
theorem upload_create_mem_visibility (t : Target) (item_type : String) (is_org : Bool)
    (rec : CsvRecord) (beh : ApiBehavior) (it : StoreItem)
    (hmem : it ∈ (upload_create t item_type is_org rec beh).1.secrets ∨
      it ∈ (upload_create t item_type is_org rec beh).1.vars) :
    (it ∈ t.secrets ∨ it ∈ t.vars) ∨
      it.visibility = some (resolveVisibility rec.visibility) ∨ it.visibility = none := by
  by_cases hc : beh = ApiBehavior.createError
  · simp only [upload_create, hc, if_true, reduceIte] at hmem
    exact Or.inl hmem
  · by_cases h1 : item_type = "secrets"
    · cases is_org
      · simp only [upload_create, hc, addItem, h1, reduceIte, Bool.false_eq_true,
          if_false, List.mem_cons] at hmem
        rcases hmem with (rfl | h) | h
        · exact Or.inr (Or.inr rfl)
        · exact Or.inl (Or.inl h)
        · exact Or.inl (Or.inr h)
      · simp only [upload_create, hc, addItem, h1, reduceIte, if_true,
          List.mem_cons] at hmem
        rcases hmem with (rfl | h) | h
        · exact Or.inr (Or.inl rfl)
        · exact Or.inl (Or.inl h)
        · exact Or.inl (Or.inr h)
    · by_cases h2 : item_type = "variables"
      · cases is_org
        · simp only [upload_create, hc, addItem, h1, h2, reduceIte, Bool.false_eq_true,
            if_false, if_true, String.reduceEq, List.mem_cons] at hmem
          rcases hmem with h | (rfl | h)
          · exact Or.inl (Or.inl h)
          · exact Or.inr (Or.inr rfl)
          · exact Or.inl (Or.inr h)
        · simp only [upload_create, hc, addItem, h1, h2, reduceIte, if_false, if_true,
            String.reduceEq, List.mem_cons] at hmem
          rcases hmem with h | (rfl | h)
          · exact Or.inl (Or.inl h)
          · exact Or.inr (Or.inl rfl)
          · exact Or.inl (Or.inr h)
      · cases is_org <;>
          simp only [upload_create, hc, addItem, h1, h2, reduceIte, Bool.false_eq_true,
            if_false, if_true] at hmem <;>
          exact Or.inl hmem

/-- A `Failed` outcome of the creation path leaves the store unchanged. -/
theorem upload_create_failed_state (t : Target) (item_type : String) (is_org : Bool)
    (rec : CsvRecord) (beh : ApiBehavior)
    (h : (upload_create t item_type is_org rec beh).2 = UpsertResult.Failed) :
    (upload_create t item_type is_org rec beh).1 = t := by
  by_cases hc : beh = ApiBehavior.createError
  · simp [upload_create, hc]
  · exfalso
    cases is_org <;> simp [upload_create, hc] at h

/-- A `Failed` outcome of one upsert iteration leaves the store unchanged. -/
theorem upload_one_failed_state (t : Target) (item_type : String) (is_org : Bool)
    (rec : CsvRecord) (beh : ApiBehavior)
    (h : (upload_one t item_type is_org rec beh).2 = UpsertResult.Failed) :
    (upload_one t item_type is_org rec beh).1 = t := by
  by_cases hb : beh = ApiBehavior.probeError
  · simp [upload_one, hb]
  · simp only [upload_one, hb, if_false, reduceIte] at h ⊢
    generalize lookupItemCI (targetItems t item_type) rec.name = lk at h ⊢
    cases lk with
    | none => exact upload_create_failed_state t item_type is_org rec beh h
    | some found =>
      have h2 : (if strLower found.name = strLower rec.name then (t, UpsertResult.Skipped)
          else upload_create t item_type is_org rec beh).2 = UpsertResult.Failed := h
      show (if strLower found.name = strLower rec.name then (t, UpsertResult.Skipped)
          else upload_create t item_type is_org rec beh).1 = t
      by_cases hn : strLower found.name = strLower rec.name
      · rw [if_pos hn]
      · rw [if_neg hn] at h2 ⊢
        exact upload_create_failed_state t item_type is_org rec beh h2

/-- When an item whose name matches the record's case-insensitively already
exists in the probed container list, the iteration returns `Skipped` and
changes nothing (requires only that the probe itself does not raise). -/
theorem upload_one_skips_existing (t : Target) (item_type : String) (is_org : Bool)
    (rec : CsvRecord) (beh : ApiBehavior) (hbeh : beh ≠ ApiBehavior.probeError)
    (hex : ∃ it ∈ targetItems t item_type, strLower it.name = strLower rec.name) :
    upload_one t item_type is_org rec beh = (t, UpsertResult.Skipped) := by
  obtain ⟨ex, hmem, hname⟩ := hex
  have hsome : (lookupItemCI (targetItems t item_type) rec.name).isSome := by
    rw [lookupItemCI, List.find?_isSome]
    exact ⟨ex, hmem, by simp [hname]⟩
  rcases hlk : lookupItemCI (targetItems t item_type) rec.name with _ | found
  · rw [hlk] at hsome
    simp at hsome
  · have hpred := List.find?_some (show List.find?
        (fun it => strLower it.name == strLower rec.name) (targetItems t item_type) =
        some found from hlk)
    have hfound : strLower found.name = strLower rec.name := by simpa using hpred
    simp [upload_one, hbeh, hlk, hfound]

/-- Case-insensitive uniqueness of item names within one container list:
no two items' names agree after lowercasing. -/
def ciUnique (items : List StoreItem) : Prop :=
  items.Pairwise (fun a b => strLower a.name ≠ strLower b.name)

/-- The store state after the creation path is the old state or the old
state with one item named `rec.name` prepended by `addItem`. -/
theorem upload_create_state (t : Target) (item_type : String) (is_org : Bool)
    (rec : CsvRecord) (beh : ApiBehavior) :
    (upload_create t item_type is_org rec beh).1 = t ∨
      ∃ it : StoreItem, it.name = rec.name ∧
        (upload_create t item_type is_org rec beh).1 = addItem t item_type it := by
  by_cases hc : beh = ApiBehavior.createError
  · left
    simp [upload_create, hc]
  · right
    cases is_org
    · exact ⟨StoreItem.mk rec.name rec.value none [], rfl, by simp [upload_create, hc]⟩
    · refine ⟨StoreItem.mk rec.name rec.value (some (resolveVisibility rec.visibility))
        (if resolveVisibility rec.visibility = "selected" then
          get_repo_ids (orgGetRepo t) (strSplitComma (rec.selectedrepositories.getD ""))
        else []), rfl, ?_⟩
      simp [upload_create, hc]

/-- `addItem` preserves case-insensitive uniqueness of both container lists
when the new name clashes with nothing in the probed list. -/
theorem addItem_ciUnique (t : Target) (item_type : String) (it : StoreItem)
    (hs : ciUnique t.secrets) (hv : ciUnique t.vars)
    (hnew : ∀ b ∈ targetItems t item_type, strLower it.name ≠ strLower b.name) :
    ciUnique (addItem t item_type it).secrets ∧ ciUnique (addItem t item_type it).vars := by
  by_cases h1 : item_type = "secrets"
  · constructor
    · simp only [addItem, h1, if_true, reduceIte]
      exact List.Pairwise.cons (by simpa [targetItems, h1] using hnew) hs
    · simpa [addItem, h1] using hv
  · by_cases h2 : item_type = "variables"
    · constructor
      · simpa [addItem, h1, h2] using hs
      · simp only [addItem, h1, h2, if_true, if_false, reduceIte]
        exact List.Pairwise.cons (by simpa [targetItems, h1, h2] using hnew) hv
    · simpa [addItem, h1, h2] using ⟨hs, hv⟩

/-- One upsert iteration preserves case-insensitive uniqueness: creation
only ever happens after the probe reported no case-insensitive match. -/
theorem upload_one_ciUnique (t : Target) (item_type : String) (is_org : Bool)
    (rec : CsvRecord) (beh : ApiBehavior)
    (hs : ciUnique t.secrets) (hv : ciUnique t.vars) :
    ciUnique (upload_one t item_type is_org rec beh).1.secrets ∧
      ciUnique (upload_one t item_type is_org rec beh).1.vars := by
  by_cases hb : beh = ApiBehavior.probeError
  · simpa [upload_one, hb] using ⟨hs, hv⟩
  · simp only [upload_one, hb, if_false, reduceIte]
    rcases hlk : lookupItemCI (targetItems t item_type) rec.name with _ | found
    · have hnone : ∀ b ∈ targetItems t item_type,
          ¬(strLower b.name == strLower rec.name) = true := by
        rw [lookupItemCI] at hlk
        exact List.find?_eq_none.mp hlk
      rcases upload_create_state t item_type is_org rec beh with h | ⟨it, hit, h⟩
      · rw [h]
        exact ⟨hs, hv⟩
      · rw [h]
        refine addItem_ciUnique t item_type it hs hv ?_
        intro b hb2
        have := hnone b hb2
        simp only [beq_iff_eq] at this
        rw [hit]
        exact fun hcontra => this hcontra.symm
    · have hpred := List.find?_some (show List.find?
          (fun x => strLower x.name == strLower rec.name) (targetItems t item_type) =
          some found from hlk)
      have hfound : strLower found.name = strLower rec.name := by simpa using hpred
      simp [hfound]
      exact ⟨hs, hv⟩

/-- Every iteration of `upload_items` preserves case-insensitive
uniqueness, hence no duplicate is ever created. -/
theorem upload_items_ciUnique (item_type : String) (is_org : Bool)
    (items : List (CsvRecord × ApiBehavior)) :
    ∀ t : Target, ciUnique t.secrets → ciUnique t.vars →
      ciUnique (upload_items item_type is_org t items).1.secrets ∧
        ciUnique (upload_items item_type is_org t items).1.vars := by
  induction items with
  | nil =>
    intro t hs hv
    simpa [upload_items] using ⟨hs, hv⟩
  | cons hd tl ih =>
    intro t hs hv
    obtain ⟨rec, beh⟩ := hd
    obtain ⟨hs1, hv1⟩ := upload_one_ciUnique t item_type is_org rec beh hs hv
    simpa [upload_items] using ih _ hs1 hv1

/-- Every item of the post-state of one upsert iteration is an old item or
the freshly created one, whose `visibility` field is `some` of the resolved
visibility (organization target) or `none` (repository target). -/
theorem upload_one_mem_visibility (t : Target) (item_type : String) (is_org : Bool)
    (rec : CsvRecord) (beh : ApiBehavior) (it : StoreItem)
    (hmem : it ∈ (upload_one t item_type is_org rec beh).1.secrets ∨
      it ∈ (upload_one t item_type is_org rec beh).1.vars) :
    (it ∈ t.secrets ∨ it ∈ t.vars) ∨
      it.visibility = some (resolveVisibility rec.visibility) ∨ it.visibility = none := by
  by_cases hb : beh = ApiBehavior.probeError
  · simp only [upload_one, hb, if_true, reduceIte] at hmem
    exact Or.inl hmem
  · simp only [upload_one, hb, if_false, reduceIte] at hmem
    rcases hlk : lookupItemCI (targetItems t item_type) rec.name with _ | ex
    · rw [hlk] at hmem
      exact upload_create_mem_visibility t item_type is_org rec beh it hmem
    · rw [hlk] at hmem
      by_cases hn : strLower ex.name = strLower rec.name
      · simp only [hn, if_true, reduceIte] at hmem
        exact Or.inl hmem
      · simp only [hn, if_false, reduceIte] at hmem
        exact upload_create_mem_visibility t item_type is_org rec beh it hmem

/-- Uploading an empty batch touches nothing and logs nothing. -/
theorem upload_batch_nil (t : Target) (item_type : String) (is_org : Bool) :
    upload_batch t item_type is_org [] = (t, []) := rfl

/-- The repository loop of `update_data` over an empty validated batch
leaves every repository unchanged and produces no events. -/
theorem update_repos_nil (repos : List Target) : update_repos [] repos = (repos, []) := by
  induction repos with
  | nil => rfl
  | cons r rest ih => simp [update_repos, repo_filter, upload_batch_nil, ih]

/-- When `read_and_verify_csv` rejects the batch, `update_data` changes no
remote state and produces no events, for every scope. -/
theorem update_data_of_rejected (org : Org) (file : CsvFile) (scope : String)
    (h : read_and_verify_csv file scope = []) : update_data org file scope = (org, []) := by
  unfold update_data
  rw [h]
  by_cases h1 : scope = "org" ∨ scope = "both" <;>
    by_cases h2 : scope = "repo" ∨ scope = "both" <;>
      simp [h1, h2, update_repos_nil, org_filter, upload_batch_nil]

/-- A row whose `type` is invalid for the scope makes the whole batch
rejected. -/
theorem read_and_verify_csv_bad_type (file : CsvFile) (scope : String)
    (h : ∃ row ∈ file.rows, rowTypeOk scope (lowerKeys row) = false) :
    read_and_verify_csv file scope = [] := by
  obtain ⟨row, hmem, hbad⟩ := h
  have hall : ((file.rows.map lowerKeys).all (rowTypeOk scope)) = false := by
    rw [List.all_eq_false]
    exact ⟨lowerKeys row, List.mem_map_of_mem lowerKeys hmem, by simp [hbad]⟩
  cases hext : file.isCsvExt <;> simp [read_and_verify_csv, hext, hall]

/-- Missing required headers for the scope make the whole batch rejected,
whatever the rows contain. -/
theorem read_and_verify_csv_missing_headers (file : CsvFile) (scope : String)
    (hscope : (scope = "org" ∧
        headersContain (file.headers.map strLower) required_headers_org = false) ∨
      (scope = "repo" ∧
        headersContain (file.headers.map strLower) required_headers_repo = false) ∨
      (scope = "both" ∧
        (headersContain (file.headers.map strLower) required_headers_org = false ∨
          headersContain (file.headers.map strLower) required_headers_repo = false))) :
    read_and_verify_csv file scope = [] := by
  cases hext : file.isCsvExt
  · simp [read_and_verify_csv, hext]
  · cases hall : ((file.rows.map lowerKeys).all (rowTypeOk scope))
    · simp [read_and_verify_csv, hext, hall]
    · rcases hscope with ⟨hs, hmiss⟩ | ⟨hs, hmiss⟩ | ⟨hs, hmiss⟩
      · subst hs
        simp [read_and_verify_csv, hext, hall, hmiss]
      · subst hs
        simp [read_and_verify_csv, hext, hall, hmiss]
      · subst hs
        rcases hmiss with hmiss | hmiss <;> simp [read_and_verify_csv, hext, hall, hmiss]

/-! ## Claim theorems -/

/-- C1: when a record's name matches an existing item of the target
container case-insensitively, the upsert returns Skipped and changes
nothing about the container; upserting "Foo" then "foo" into an empty
organization yields Created then Skipped with a single stored item; and
`upload_items` never creates a second item whose name matches an existing
one case-insensitively (case-insensitive uniqueness is preserved). -/
theorem upsert_case_insensitive_idempotent :
    (∀ (t : Target) (item_type : String) (is_org : Bool) (rec : CsvRecord)
        (beh : ApiBehavior),
      beh ≠ ApiBehavior.probeError →
      (∃ it ∈ targetItems t item_type, strLower it.name = strLower rec.name) →
      upload_one t item_type is_org rec beh = (t, UpsertResult.Skipped))
    ∧ (upload_items "secrets" true (Target.mk "org" [] [] [])
        [({ name := "Foo", value := "v" }, ApiBehavior.ok),
         ({ name := "foo", value := "w" }, ApiBehavior.ok)]
      = (Target.mk "org" [StoreItem.mk "Foo" "v" (some "all") []] [] [],
         [("Foo", UpsertResult.Created), ("foo", UpsertResult.Skipped)]))
    ∧ (∀ (item_type : String) (is_org : Bool) (items : List (CsvRecord × ApiBehavior))
        (t : Target),
      ciUnique t.secrets → ciUnique t.vars →
      ciUnique (upload_items item_type is_org t items).1.secrets ∧
        ciUnique (upload_items item_type is_org t items).1.vars) := by
  refine ⟨upload_one_skips_existing, by decide, upload_items_ciUnique⟩

/-- C1 witness: a container holding "FOO" makes the upsert of "foo" a
no-op Skipped. -/
theorem upsert_case_insensitive_idempotent_witness :
    upload_one (Target.mk "org" [StoreItem.mk "FOO" "v" (some "all") []] [] [])
        "secrets" true { name := "foo" } ApiBehavior.ok
      = (Target.mk "org" [StoreItem.mk "FOO" "v" (some "all") []] [] [],
         UpsertResult.Skipped) :=
  upsert_case_insensitive_idempotent.1
    (Target.mk "org" [StoreItem.mk "FOO" "v" (some "all") []] [] [])
    "secrets" true { name := "foo" } ApiBehavior.ok (by decide)
    ⟨StoreItem.mk "FOO" "v" (some "all") [], by decide, by decide⟩

/-- C2 counterexample: the code never lowercases the visibility value, so
`"Selected"` resolves to `"all"`, not `"selected"` as the claim states. -/
theorem resolveVisibility_Selected_counterexample :
    resolveVisibility (some "Selected") = "all" ∧
      resolveVisibility (some "Selected") ≠ "selected" := by decide

/-- C2 (amended): visibility resolution maps the raw visibility text into
{all, private, selected} by exact, case-sensitive comparison, without
lowercasing: exactly "private" and "selected" pass through; everything
else — including "Selected", "bogus" and "" — defaults to "all"; and every
item the upsert adds to the store carries `some` of a resolved visibility
(organization create calls) or no visibility at all (repository create
calls), so no value outside the closed set is ever passed to a create
call. -/
theorem resolveVisibility_exact_closed_set :
    (∀ v : Option String, resolveVisibility v = "all" ∨
      resolveVisibility v = "private" ∨ resolveVisibility v = "selected")
    ∧ resolveVisibility (some "selected") = "selected"
    ∧ resolveVisibility (some "private") = "private"
    ∧ resolveVisibility (some "Selected") = "all"
    ∧ resolveVisibility (some "bogus") = "all"
    ∧ resolveVisibility (some "") = "all"
    ∧ resolveVisibility none = "all"
    ∧ (∀ (t : Target) (item_type : String) (is_org : Bool) (rec : CsvRecord)
        (beh : ApiBehavior) (it : StoreItem),
      (it ∈ (upload_one t item_type is_org rec beh).1.secrets ∨
        it ∈ (upload_one t item_type is_org rec beh).1.vars) →
      (it ∈ t.secrets ∨ it ∈ t.vars) ∨
        it.visibility = some (resolveVisibility rec.visibility) ∨
          it.visibility = none) := by
  refine ⟨?_, by decide, by decide, by decide, by decide, by decide, by decide,
    upload_one_mem_visibility⟩
  intro v
  rcases v with _ | s
  · left
    decide
  · by_cases h1 : s = "private"
    · subst h1
      right
      left
      decide
    · by_cases h2 : s = "selected"
      · subst h2
        right
        right
        decide
      · left
        simp [resolveVisibility, h1, h2]

/-- C2 amended witness: the closed-set fact at "x", and the created-item
fact on an upsert into an empty organization. -/
theorem resolveVisibility_exact_closed_set_witness :
    (resolveVisibility (some "x") = "all" ∨ resolveVisibility (some "x") = "private" ∨
      resolveVisibility (some "x") = "selected")
    ∧ ((StoreItem.mk "N" "v" (some "all") [] ∈
          ([] : List StoreItem) ∨ StoreItem.mk "N" "v" (some "all") [] ∈
          ([] : List StoreItem)) ∨
        (StoreItem.mk "N" "v" (some "all") []).visibility =
          some (resolveVisibility ({ name := "N", value := "v" : CsvRecord}).visibility) ∨
        (StoreItem.mk "N" "v" (some "all") []).visibility = none) :=
  ⟨resolveVisibility_exact_closed_set.1 (some "x"),
   resolveVisibility_exact_closed_set.2.2.2.2.2.2.2
     (Target.mk "org" [] [] []) "secrets" true { name := "N", value := "v" }
     ApiBehavior.ok (StoreItem.mk "N" "v" (some "all") []) (Or.inl (by decide))⟩

/-- C3: one row whose `type` is outside the set admitted for the requested
scope rejects the entire batch — `read_and_verify_csv` returns zero
records — and consequently `update_data` performs no remote mutation and
records no outcome for any row of the batch. -/
theorem invalid_type_rejects_whole_batch :
    ∀ (file : CsvFile) (scope : String),
      (∃ row ∈ file.rows, rowTypeOk scope (lowerKeys row) = false) →
      read_and_verify_csv file scope = [] ∧
        ∀ org : Org, update_data org file scope = (org, []) := by
  intro file scope h
  have hread := read_and_verify_csv_bad_type file scope h
  exact ⟨hread, fun org => update_data_of_rejected org file scope hread⟩

/-- C3 witness: a repo-scope batch containing one `org_secret` row is
rejected wholesale. -/
theorem invalid_type_rejects_whole_batch_witness :
    read_and_verify_csv (CsvFile.mk true ["type", "name", "value", "repository"]
        [[("type", "org_secret"), ("name", "S"), ("value", "v"), ("repository", "r")]])
        "repo" = [] ∧
      update_data (Org.mk (Target.mk "org" [] [] []) [Target.mk "r" [] [] []])
        (CsvFile.mk true ["type", "name", "value", "repository"]
          [[("type", "org_secret"), ("name", "S"), ("value", "v"), ("repository", "r")]])
        "repo"
      = (Org.mk (Target.mk "org" [] [] []) [Target.mk "r" [] [] []], []) := by
  have h := invalid_type_rejects_whole_batch
    (CsvFile.mk true ["type", "name", "value", "repository"]
      [[("type", "org_secret"), ("name", "S"), ("value", "v"), ("repository", "r")]])
    "repo"
    ⟨[("type", "org_secret"), ("name", "S"), ("value", "v"), ("repository", "r")],
      by decide, by decide⟩
  exact ⟨h.1, h.2 (Org.mk (Target.mk "org" [] [] []) [Target.mk "r" [] [] []])⟩

/-- C4: a "not found" probe outcome proceeds to creation; a probe failure
other than "not found" yields Failed for that record with the store
unchanged; a creation failure yields Failed for that record with the store
unchanged; and a Failed record never affects the processing of the
remaining records of the batch. -/
theorem probe_failure_isolated_per_record :
    (∀ (t : Target) (item_type : String) (is_org : Bool) (rec : CsvRecord),
      lookupItemCI (targetItems t item_type) rec.name = none →
      (upload_one t item_type is_org rec ApiBehavior.ok).2 = UpsertResult.Created)
    ∧ (∀ (t : Target) (item_type : String) (is_org : Bool) (rec : CsvRecord),
      upload_one t item_type is_org rec ApiBehavior.probeError =
        (t, UpsertResult.Failed))
    ∧ (∀ (t : Target) (item_type : String) (is_org : Bool) (rec : CsvRecord),
      lookupItemCI (targetItems t item_type) rec.name = none →
      upload_one t item_type is_org rec ApiBehavior.createError =
        (t, UpsertResult.Failed))
    ∧ (∀ (t : Target) (item_type : String) (is_org : Bool) (rec : CsvRecord)
        (beh : ApiBehavior) (rest : List (CsvRecord × ApiBehavior)),
      (upload_one t item_type is_org rec beh).2 = UpsertResult.Failed →
      upload_items item_type is_org t ((rec, beh) :: rest) =
        ((upload_items item_type is_org t rest).1,
         (rec.name, UpsertResult.Failed) ::
           (upload_items item_type is_org t rest).2)) := by
  refine ⟨?_, ?_, ?_, ?_⟩
  · intro t item_type is_org rec hlk
    cases is_org <;> simp [upload_one, hlk, upload_create]
  · intro t item_type is_org rec
    simp [upload_one]
  · intro t item_type is_org rec hlk
    simp [upload_one, hlk, upload_create]
  · intro t item_type is_org rec beh rest hfail
    have hstate := upload_one_failed_state t item_type is_org rec beh hfail
    simp [upload_items, hstate, hfail]

/-- C4 witness: against an empty container, an ok probe creates, a probe
error fails in place, a create error fails in place, and a failing first
record leaves the second record's processing untouched. -/
theorem probe_failure_isolated_per_record_witness :
    ((upload_one (Target.mk "o" [] [] []) "secrets" true { name := "A" }
        ApiBehavior.ok).2 = UpsertResult.Created)
    ∧ (upload_one (Target.mk "o" [] [] []) "secrets" true { name := "A" }
        ApiBehavior.probeError = (Target.mk "o" [] [] [], UpsertResult.Failed))
    ∧ (upload_one (Target.mk "o" [] [] []) "secrets" true { name := "A" }
        ApiBehavior.createError = (Target.mk "o" [] [] [], UpsertResult.Failed))
    ∧ (upload_items "secrets" true (Target.mk "o" [] [] [])
        [({ name := "A" }, ApiBehavior.probeError), ({ name := "B" }, ApiBehavior.ok)]
      = ((upload_items "secrets" true (Target.mk "o" [] [] [])
            [({ name := "B" }, ApiBehavior.ok)]).1,
         ("A", UpsertResult.Failed) ::
           (upload_items "secrets" true (Target.mk "o" [] [] [])
             [({ name := "B" }, ApiBehavior.ok)]).2)) :=
  ⟨probe_failure_isolated_per_record.1 (Target.mk "o" [] [] []) "secrets" true
     { name := "A" } (by decide),
   probe_failure_isolated_per_record.2.1 (Target.mk "o" [] [] []) "secrets" true
     { name := "A" },
   probe_failure_isolated_per_record.2.2.1 (Target.mk "o" [] [] []) "secrets" true
     { name := "A" } (by decide),
   probe_failure_isolated_per_record.2.2.2 (Target.mk "o" [] [] []) "secrets" true
     { name := "A" } ApiBehavior.probeError [({ name := "B" }, ApiBehavior.ok)]
     (by decide)⟩

/-- C5 counterexample: an enumeration that yields one item and then raises
does NOT yield an empty sequence — the record built before the error stays
in the returned list, contradicting the claim that the result is empty
regardless of how many items had been enumerated. -/
theorem enumeration_error_partial_counterexample :
    (get_items_org (ItemStream.mk [ItemInfo.mk "A" (some "all") [] ""] true)
        "secrets" false "" "" (fun _ => HttpResult.err)).1
      = [OrgRecord.mk "A" (some "all") none none] ∧
    (get_items_org (ItemStream.mk [ItemInfo.mk "A" (some "all") [] ""] true)
        "secrets" false "" "" (fun _ => HttpResult.err)).1 ≠ [] := by decide

/-- C5 (amended): an error while enumerating a container's items is caught
and logged, and the function returns the records accumulated before the
error — one record per item already yielded, so the sequence is empty
exactly when the error precedes the first item — and the failure does not
abort sibling containers, whose contribution to the collected batch is
unchanged. -/
theorem enumeration_error_returns_accumulated :
    (∀ (stream : ItemStream) (item_type : String) (fetch_values : Bool)
        (token org_name : String) (respOf : String → HttpResult),
      (get_items_org stream item_type fetch_values token org_name respOf).1.length =
          stream.yielded.length ∧
        (get_items_org stream item_type fetch_values token org_name respOf).2 =
          stream.errors)
    ∧ (∀ (repoName : String) (stream : ItemStream) (item_type : String)
        (fetch_values : Bool),
      (get_items_repo repoName stream item_type fetch_values).1.length =
          stream.yielded.length ∧
        (get_items_repo repoName stream item_type fetch_values).2 = stream.errors)
    ∧ (∀ (r : String × ItemStream) (rest : List (String × ItemStream))
        (item_type : String) (fetch_values : Bool),
      collect_repo_items (r :: rest) item_type fetch_values =
        (get_items_repo r.1 r.2 item_type fetch_values).1 ++
          collect_repo_items rest item_type fetch_values) := by
  refine ⟨?_, ?_, ?_⟩
  · intro stream item_type fetch_values token org_name respOf
    simp [get_items_org]
  · intro repoName stream item_type fetch_values
    simp [get_items_repo]
  · intro r rest item_type fetch_values
    simp [collect_repo_items]

/-- C6: missing required columns for the requested scope reject the batch
with zero records even when every row type is valid (no type-validity
assumption is needed at all), and nothing is classified or uploaded:
`update_data` leaves the remote state untouched and produces no events. -/
theorem missing_headers_reject_batch :
    (∀ (file : CsvFile) (org : Org),
      headersContain (file.headers.map strLower) required_headers_org = false →
      read_and_verify_csv file "org" = [] ∧
        update_data org file "org" = (org, []))
    ∧ (∀ (file : CsvFile) (org : Org),
      headersContain (file.headers.map strLower) required_headers_repo = false →
      read_and_verify_csv file "repo" = [] ∧
        update_data org file "repo" = (org, []))
    ∧ (∀ (file : CsvFile) (org : Org),
      (headersContain (file.headers.map strLower) required_headers_org = false ∨
        headersContain (file.headers.map strLower) required_headers_repo = false) →
      read_and_verify_csv file "both" = [] ∧
        update_data org file "both" = (org, [])) := by
  refine ⟨?_, ?_, ?_⟩
  · intro file org hmiss
    have hread := read_and_verify_csv_missing_headers file "org" (Or.inl ⟨rfl, hmiss⟩)
    exact ⟨hread, update_data_of_rejected org file "org" hread⟩
  · intro file org hmiss
    have hread := read_and_verify_csv_missing_headers file "repo"
      (Or.inr (Or.inl ⟨rfl, hmiss⟩))
    exact ⟨hread, update_data_of_rejected org file "repo" hread⟩
  · intro file org hmiss
    have hread := read_and_verify_csv_missing_headers file "both"
      (Or.inr (Or.inr ⟨rfl, hmiss⟩))
    exact ⟨hread, update_data_of_rejected org file "both" hread⟩

/-- C6 witness: an org-scope batch with valid types but no `visibility`
column yields zero records and no upload. -/
theorem missing_headers_reject_batch_witness :
    read_and_verify_csv
        (CsvFile.mk true ["type", "name", "value", "selectedrepositories"]
          [[("type", "org_secret"), ("name", "S"), ("value", "v"),
            ("selectedrepositories", "")]]) "org" = [] ∧
      update_data (Org.mk (Target.mk "org" [] [] []) [])
        (CsvFile.mk true ["type", "name", "value", "selectedrepositories"]
          [[("type", "org_secret"), ("name", "S"), ("value", "v"),
            ("selectedrepositories", "")]]) "org"
      = (Org.mk (Target.mk "org" [] [] []) [], []) :=
  missing_headers_reject_batch.1
    (CsvFile.mk true ["type", "name", "value", "selectedrepositories"]
      [[("type", "org_secret"), ("name", "S"), ("value", "v"),
        ("selectedrepositories", "")]])
    (Org.mk (Target.mk "org" [] [] []) []) (by decide)

/-- C7: for secrets the `fetch_values` flag is a no-op at every scope — the
organization, repository and repository-environment readers produce
identical output with the flag on or off — and no secret record ever
carries a value. -/
theorem fetch_values_noop_for_secrets :
    (∀ (stream : ItemStream) (fetch_values : Bool) (token org_name : String)
        (respOf : String → HttpResult),
      get_items_org stream "secrets" fetch_values token org_name respOf =
        get_items_org stream "secrets" false token org_name respOf)
    ∧ (∀ (repoName : String) (stream : ItemStream) (fetch_values : Bool),
      get_items_repo repoName stream "secrets" fetch_values =
        get_items_repo repoName stream "secrets" false)
    ∧ (∀ (repoName : String) (enum : EnvEnum) (fetch_values : Bool),
      get_env_items_repo repoName enum "secrets" fetch_values =
        get_env_items_repo repoName enum "secrets" false)
    ∧ (∀ (stream : ItemStream) (fetch_values : Bool) (token org_name : String)
        (respOf : String → HttpResult) (r : OrgRecord),
      r ∈ (get_items_org stream "secrets" fetch_values token org_name respOf).1 →
      r.itemValue = none)
    ∧ (∀ (repoName : String) (stream : ItemStream) (fetch_values : Bool)
        (r : RepoRecord),
      r ∈ (get_items_repo repoName stream "secrets" fetch_values).1 →
      r.itemValue = none)
    ∧ (∀ (repoName : String) (enum : EnvEnum) (fetch_values : Bool) (r : EnvRecord),
      r ∈ (get_env_items_repo repoName enum "secrets" fetch_values).1 →
      r.itemValue = none) := by
  refine ⟨?_, ?_, ?_, ?_, ?_, ?_⟩
  · intro stream fetch_values token org_name respOf
    simp [get_items_org]
  · intro repoName stream fetch_values
    simp [get_items_repo]
  · intro repoName enum fetch_values
    simp [get_env_items_repo]
  · intro stream fetch_values token org_name respOf r hr
    simp [get_items_org] at hr
    obtain ⟨i, _, rfl⟩ := hr
    rfl
  · intro repoName stream fetch_values r hr
    simp [get_items_repo] at hr
    obtain ⟨i, _, rfl⟩ := hr
    rfl
  · intro repoName enum fetch_values r hr
    simp only [get_env_items_repo, List.mem_flatten, List.mem_map] at hr
    obtain ⟨l, ⟨env, henv, hl⟩, hrl⟩ := hr
    subst hl
    simp only [List.mem_map] at hrl
    obtain ⟨i, hi, rfl⟩ := hrl
    simp

/-- C7 witness: a concrete secret stream read with values requested equals
the read without, and its one record carries no value. -/
theorem fetch_values_noop_for_secrets_witness :
    (get_items_org (ItemStream.mk [ItemInfo.mk "S" (some "all") [] "x"] false)
        "secrets" true "tok" "org" (fun _ => HttpResult.err) =
      get_items_org (ItemStream.mk [ItemInfo.mk "S" (some "all") [] "x"] false)
        "secrets" false "tok" "org" (fun _ => HttpResult.err)) ∧
      (OrgRecord.mk "S" (some "all") none none).itemValue = none :=
  ⟨fetch_values_noop_for_secrets.1
     (ItemStream.mk [ItemInfo.mk "S" (some "all") [] "x"] false) true "tok" "org"
     (fun _ => HttpResult.err),
   fetch_values_noop_for_secrets.2.2.2.1
     (ItemStream.mk [ItemInfo.mk "S" (some "all") [] "x"] false) true "tok" "org"
     (fun _ => HttpResult.err) (OrgRecord.mk "S" (some "all") none none) (by decide)⟩

/-- C8: selected-repository resolution looks up each name individually
after trimming; a failing name is dropped without disturbing the others;
the resolved list is empty exactly when no name resolved; on the concrete
pair ["real-repo", " ghost-repo"] with only "real-repo" resolvable exactly
one handle comes back; and a record under `selected` visibility is still
Created — the names are split on commas, trimmed and resolved best-effort
without ever failing the record. -/
theorem selected_repository_resolution_best_effort :
    (∀ (getRepo : String → Option String) (pre post : List String) (bad : String),
      getRepo (strTrim bad) = none →
      get_repo_ids getRepo (pre ++ bad :: post) =
        get_repo_ids getRepo pre ++ get_repo_ids getRepo post)
    ∧ (∀ (getRepo : String → Option String) (names : List String),
      get_repo_ids getRepo names = [] ↔ ∀ n ∈ names, getRepo (strTrim n) = none)
    ∧ (get_repo_ids (fun n => if n = "real-repo" then some n else none)
        ["real-repo", " ghost-repo"] = ["real-repo"])
    ∧ (∀ (t : Target) (rec : CsvRecord),
      resolveVisibility rec.visibility = "selected" →
      lookupItemCI (targetItems t "secrets") rec.name = none →
      upload_one t "secrets" true rec ApiBehavior.ok =
        ({ t with secrets :=
              (StoreItem.mk rec.name rec.value (some "selected")
                (get_repo_ids (orgGetRepo t)
                  (strSplitComma (rec.selectedrepositories.getD ""))) :: t.secrets) },
         UpsertResult.Created)) := by
  refine ⟨?_, ?_, by decide, ?_⟩
  · intro getRepo pre post bad hbad
    simp [get_repo_ids, List.filterMap_append, hbad]
  · intro getRepo names
    simp [get_repo_ids, List.filterMap_eq_nil_iff]
  · intro t rec hvis hlk
    simp [upload_one, hlk, upload_create, hvis, addItem]

/-- C8 witness: one unresolvable name out of two drops only itself, and a
selected-visibility record with one ghost name is still Created with the
single resolved handle. -/
theorem selected_repository_resolution_best_effort_witness :
    (get_repo_ids (fun n => if n = "a" then some n else none)
        (["a"] ++ "ghost" :: ["a"]) =
      get_repo_ids (fun n => if n = "a" then some n else none) ["a"] ++
        get_repo_ids (fun n => if n = "a" then some n else none) ["a"])
    ∧ (get_repo_ids (fun n => if n = "a" then some n else none) ["ghost"] = [] ↔
        ∀ n ∈ ["ghost"], (fun n => if n = "a" then some n else none) (strTrim n) = none)
    ∧ (upload_one (Target.mk "o" [] [] ["real-repo"]) "secrets" true
        { name := "S", value := "v", visibility := some "selected",
          selectedrepositories := some "real-repo, ghost-repo" } ApiBehavior.ok
      = (Target.mk "o" [StoreItem.mk "S" "v" (some "selected") ["real-repo"]] []
          ["real-repo"], UpsertResult.Created)) := by
  refine ⟨selected_repository_resolution_best_effort.1
      (fun n => if n = "a" then some n else none) ["a"] ["a"] "ghost" (by decide),
    selected_repository_resolution_best_effort.2.1
      (fun n => if n = "a" then some n else none) ["ghost"], ?_⟩
  have h := selected_repository_resolution_best_effort.2.2.2
    (Target.mk "o" [] [] ["real-repo"])
    { name := "S", value := "v", visibility := some "selected",
      selectedrepositories := some "real-repo, ghost-repo" }
    (by decide) (by decide)
  rw [h]
  decide

/-- C9: exporting organization variables with value fetching enabled
retrieves each value by one dedicated request keyed by that variable's own
name; a failed request leaves the record's value absent — `none`, never
the empty string — and every other variable of the batch still produces
its record. -/
theorem org_variable_value_fetch_isolated :
    ∀ (stream : ItemStream) (token org_name : String)
      (respOf : String → HttpResult),
      token ≠ "" → org_name ≠ "" →
      ((get_items_org stream "variables" true token org_name respOf).1 =
        stream.yielded.map (fun i =>
          OrgRecord.mk i.name i.visibility (get_selected_repositories i)
            (get_org_variable_value (respOf i.name))))
      ∧ get_org_variable_value HttpResult.err = none
      ∧ (∀ s : String, get_org_variable_value (respOf s) = none ∨
          (get_org_variable_value (respOf s)).isSome)
      ∧ (get_items_org stream "variables" true token org_name respOf).1.length =
          stream.yielded.length := by
  intro stream token org_name respOf htok horg
  refine ⟨?_, rfl, ?_, ?_⟩
  · simp [get_items_org, htok, horg, OrgRecord.mk]
  · intro s
    rcases h : get_org_variable_value (respOf s) with _ | v
    · exact Or.inl rfl
    · exact Or.inr (by simp [h])
  · simp [get_items_org]

/-- C9 witness: two variables, the first one's request failing — its record
carries no value while the second record is still produced with its
fetched value. -/
theorem org_variable_value_fetch_isolated_witness :
    (get_items_org
        (ItemStream.mk [ItemInfo.mk "A" (some "all") [] "",
          ItemInfo.mk "B" (some "all") [] ""] false)
        "variables" true "tok" "org"
        (fun n => if n = "B" then HttpResult.ok [("value", "bval")]
          else HttpResult.err)).1 =
      [ItemInfo.mk "A" (some "all") [] "",
        ItemInfo.mk "B" (some "all") [] ""].map (fun i =>
        OrgRecord.mk i.name i.visibility (get_selected_repositories i)
          (get_org_variable_value
            ((fun n => if n = "B" then HttpResult.ok [("value", "bval")]
              else HttpResult.err) i.name))) :=
  (org_variable_value_fetch_isolated
    (ItemStream.mk [ItemInfo.mk "A" (some "all") [] "",
      ItemInfo.mk "B" (some "all") [] ""] false)
    "tok" "org"
    (fun n => if n = "B" then HttpResult.ok [("value", "bval")]
      else HttpResult.err)
    (by decide) (by decide)).1

/-- C10: a validated repo-scope row whose `repository` cell matches no
repository name by exact, case-sensitive comparison lands in no
repository's upload batch — so no remote call is issued for it — and a
concrete import whose only row names a non-existent repository leaves the
whole organization untouched and produces no event at all. -/
theorem unmatched_repository_row_silently_ignored :
    (∀ (csv_items : List Row) (row : Row) (repoName ty : String),
      getCell row "repository" ≠ some repoName →
      row ∉ repo_filter csv_items ty repoName)
    ∧ (∀ (org : Org) (csv_items : List Row) (row : Row) (r : String) (ty : String),
      getCell row "repository" = some r →
      (∀ repo ∈ org.repos, repo.name ≠ r) →
      ∀ repo ∈ org.repos, row ∉ repo_filter csv_items ty repo.name)
    ∧ (update_data (Org.mk (Target.mk "org" [] [] []) [Target.mk "svc" [] [] []])
        (CsvFile.mk true ["type", "name", "value", "repository"]
          [[("type", "repo_secret"), ("name", "S"), ("value", "v"),
            ("repository", "ghost-repo")]]) "repo"
      = (Org.mk (Target.mk "org" [] [] []) [Target.mk "svc" [] [] []], [])) := by
  have hbase : ∀ (csv_items : List Row) (row : Row) (repoName ty : String),
      getCell row "repository" ≠ some repoName →
      row ∉ repo_filter csv_items ty repoName := by
    intro csv_items row repoName ty hne hmem
    rw [repo_filter, List.mem_filter] at hmem
    have hp := hmem.2
    simp only [Bool.and_eq_true, beq_iff_eq] at hp
    exact hne hp.2
  refine ⟨hbase, ?_, by decide⟩
  intro org csv_items row r ty hcell hnone repo hrepo
  refine hbase csv_items row repo.name ty ?_
  rw [hcell]
  intro hcontra
  exact hnone repo hrepo (by injection hcontra with h; exact h.symm)

/-- C10 witness: a row destined for "ghost" is in no batch filtered for
"svc". -/
theorem unmatched_repository_row_silently_ignored_witness :
    [("type", "repo_secret"), ("repository", "ghost")] ∉
      repo_filter [[("type", "repo_secret"), ("repository", "ghost")]]
        "repo_secret" "svc" :=
  unmatched_repository_row_silently_ignored.1
    [[("type", "repo_secret"), ("repository", "ghost")]]
    [("type", "repo_secret"), ("repository", "ghost")] "svc" "repo_secret"
    (by decide)

end GhVarSecrets
